import Mathlib

/-!
Verification of the atomic configuration-and-asset update engine of the
slide-gpio repository (package `atc_engine`).

The Lean definitions below are a shallow embedding of the relevant Python
source:

* `validate_config`          embeds `ConfigManager._validate_config`
                             (src/atc_engine/config_manager.py, lines 26-96);
* `validate_usb_config`      embeds `ConfigUpdater._validate_usb_config`
                             (src/atc_engine/config_updater.py, lines 68-92);
* `gather_assets_from_config` embeds `ConfigUpdater._gather_assets_from_config`
                             (config_updater.py, lines 114-134);
* `rewrite_config_paths`     embeds `ConfigUpdater._rewrite_config_paths`
                             (config_updater.py, lines 94-112);
* `perform_atomic_update`    embeds `ConfigUpdater._perform_atomic_update`
                             (config_updater.py, lines 136-319);
* `start_usb_update_process` / `stop_update_process` embed the worker-thread
                             guard (config_updater.py, lines 369-389).

JSON documents are modelled by the inductive type `JValue`.  Python type
tests are mirrored exactly; in particular Python treats `bool` as a subtype
of `int`, so `isinstance(x, int)` is modelled by `JValue.isIntPy`, which is
true on booleans as well.  Float payloads are irrelevant to every claim (the
validator only inspects type tags), so they are carried as an opaque `Int`
payload.
-/

namespace SlideGpio

/-- JSON value, as produced by Python json.load: null, booleans, integers,
floats, strings, arrays, and objects (dictionaries with string keys, in
insertion order). -/
inductive JValue where
  | jnull : JValue
  | jbool : Bool → JValue
  | jint : Int → JValue
  | jfloat : Int → JValue
  | jstr : String → JValue
  | jarr : List JValue → JValue
  | jobj : List (String × JValue) → JValue

/-- Lookup of a key in an association list of object fields (first
occurrence), mirroring Python dictionary access. -/
def jlookup : List (String × JValue) → String → Option JValue
  | [], _ => none
  | (k, v) :: rest, key => if k = key then some v else jlookup rest key

/-- Lookup of a key in a JSON value; on non-objects the key is absent
(mirrors the `key in d` / `d.get(key)` accesses of the source, which are
only reached on dictionaries). -/
def JValue.lookup : JValue → String → Option JValue
  | .jobj fields, key => jlookup fields key
  | _, _ => none

/-- Python `d.get(key, default)`. -/
def JValue.getD (j : JValue) (key : String) (d : JValue) : JValue :=
  (j.lookup key).getD d

/-- Fields of an object; empty on non-objects. -/
def JValue.objFields : JValue → List (String × JValue)
  | .jobj fields => fields
  | _ => []

/-- Python `isinstance(x, dict)`. -/
def JValue.isDict : JValue → Bool
  | .jobj _ => true
  | _ => false

/-- Python `isinstance(x, str)`. -/
def JValue.isStr : JValue → Bool
  | .jstr _ => true
  | _ => false

/-- Python `isinstance(x, int)`; note that Python booleans are integers. -/
def JValue.isIntPy : JValue → Bool
  | .jint _ => true
  | .jbool _ => true
  | _ => false

/-- Python `isinstance(x, (float, int))`. -/
def JValue.isNumPy : JValue → Bool
  | .jfloat _ => true
  | .jint _ => true
  | .jbool _ => true
  | _ => false

/-! The schema validator, `ConfigManager._validate_config`.  It raises
`ConfigError` (a `ValueError`) on the first violation found; this is
modelled by `Except String Unit`, the error string playing the role of the
exception message. -/

/-- Required top-level sections, config_manager.py line 28. -/
def requiredTopLevelKeys : List String := ["buttons", "media", "actions", "settings"]

/-- Presence and dictionary-ness of the four required top-level keys,
config_manager.py lines 29-33. -/
def checkTopLevel (config : JValue) : List String → Except String Unit
  | [] => .ok ()
  | key :: rest =>
    match config.lookup key with
    | none => .error ("Missing required top-level key " ++ key ++ " in configuration.")
    | some v =>
      if v.isDict then checkTopLevel config rest
      else .error ("Top-level key " ++ key ++ " must be a dictionary.")

/-- Valid button modes, config_manager.py line 42. -/
def validButtonModes : List String := ["press", "toggle"]

/-- Per-button checks, config_manager.py lines 38-43. -/
def checkButtonEntries : List (String × JValue) → Except String Unit
  | [] => .ok ()
  | (name, details) :: rest =>
    if !details.isDict then .error ("Button " ++ name ++ " details must be a dictionary.")
    else
      match details.lookup "value" with
      | none => .error ("Button " ++ name ++ " must have an integer value.")
      | some v =>
        if !v.isIntPy then .error ("Button " ++ name ++ " must have an integer value.")
        else
          match details.lookup "mode" with
          | none => .error ("Button " ++ name ++ " must have a mode press or toggle.")
          | some m =>
            match m with
            | .jstr s =>
              if validButtonModes.contains s then checkButtonEntries rest
              else .error ("Button " ++ name ++ " must have a mode press or toggle.")
            | _ => .error ("Button " ++ name ++ " must have a mode press or toggle.")

/-- Valid media modes, config_manager.py line 48. -/
def validMediaModes : List String := ["image_still", "image_flash", "scroll_text", "slide"]

/-- Valid action modes, config_manager.py line 63. -/
def validActionModes : List String := ["hdmi_control", "load_config"]

/-- Check of an optional button field: must be a string or a list of
strings when present, config_manager.py lines 56-58 and 68-70. -/
def buttonFieldOk : JValue → Bool
  | .jstr _ => true
  | .jarr xs => xs.all JValue.isStr
  | _ => false

/-- Per-media-item checks, config_manager.py lines 49-58. -/
def checkMediaEntries : List (String × JValue) → Except String Unit
  | [] => .ok ()
  | (name, details) :: rest =>
    if !details.isDict then .error ("Media item " ++ name ++ " details must be a dictionary.")
    else
      match details.lookup "mode" with
      | none => .error ("Media item " ++ name ++ " must have a valid mode.")
      | some m =>
        match m with
        | .jstr s =>
          if validMediaModes.contains s then
            match details.lookup "path" with
            | none => .error ("Media item " ++ name ++ " must have a string path.")
            | some p =>
              if !p.isStr then .error ("Media item " ++ name ++ " must have a string path.")
              else
                match details.lookup "button" with
                | none => checkMediaEntries rest
                | some b =>
                  if buttonFieldOk b then checkMediaEntries rest
                  else .error ("Media item " ++ name ++ " button must be a string or list of strings.")
          else .error ("Media item " ++ name ++ " must have a valid mode.")
        | _ => .error ("Media item " ++ name ++ " must have a valid mode.")

/-- Per-action-item checks, config_manager.py lines 64-70. -/
def checkActionEntries : List (String × JValue) → Except String Unit
  | [] => .ok ()
  | (name, details) :: rest =>
    if !details.isDict then .error ("Action item " ++ name ++ " details must be a dictionary.")
    else
      match details.lookup "mode" with
      | none => .error ("Action item " ++ name ++ " must have a valid mode.")
      | some m =>
        match m with
        | .jstr s =>
          if validActionModes.contains s then
            match details.lookup "button" with
            | none => checkActionEntries rest
            | some b =>
              if buttonFieldOk b then checkActionEntries rest
              else .error ("Action item " ++ name ++ " button must be a string or list of strings.")
          else .error ("Action item " ++ name ++ " must have a valid mode.")
        | _ => .error ("Action item " ++ name ++ " must have a valid mode.")

/-- Expected type of a settings entry (config_manager.py lines 75-81):
`num` stands for the Python tuple `(float, int)`, `int` for `int`, `str`
for `str`. -/
inductive SettingKind where
  | num : SettingKind
  | int : SettingKind
  | str : SettingKind

/-- The `expected_settings` table in its source order, config_manager.py
lines 75-81. -/
def expectedSettings : List (String × SettingKind) :=
  [("debounce_time", .num), ("poll_interval", .num),
   ("default_combo_hold_time", .num), ("default_media_name", .str),
   ("image_flash_duty_cycle", .num), ("image_flash_duration", .num),
   ("scroll_text_speed", .int), ("scroll_text_font_size", .int),
   ("scroll_text_font_color", .str)]

/-- Whether a settings value matches its expected type. -/
def settingKindHolds : SettingKind → JValue → Bool
  | .num, v => v.isNumPy
  | .int, v => v.isIntPy
  | .str, v => v.isStr

/-- Settings loop, config_manager.py lines 82-91: a missing key is fatal
only for `default_media_name`; any other missing key is skipped (optional)
and a present key is type-checked. -/
def checkSettingEntries (settings : JValue) : List (String × SettingKind) → Except String Unit
  | [] => .ok ()
  | (key, kind) :: rest =>
    match settings.lookup key with
    | none =>
      if key = "default_media_name" then
        .error ("Missing required setting " ++ key ++ ".")
      else checkSettingEntries settings rest
    | some v =>
      if settingKindHolds kind v then checkSettingEntries settings rest
      else .error ("Setting " ++ key ++ " has the wrong type.")

/-- The trailing scroll_text_bg_color check, config_manager.py lines 93-94:
if present it must be null or a string. -/
def checkBgColor (settings : JValue) : Except String Unit :=
  match settings.lookup "scroll_text_bg_color" with
  | none => .ok ()
  | some .jnull => .ok ()
  | some (.jstr _) => .ok ()
  | some _ => .error "Setting scroll_text_bg_color must be a string or null."

/-- The schema validator `ConfigManager._validate_config`
(config_manager.py, lines 26-96), returning `.ok ()` where the source
returns normally and `.error msg` where it raises `ConfigError(msg)`. -/
def validate_config (config : JValue) : Except String Unit :=
  match checkTopLevel config requiredTopLevelKeys with
  | .error e => .error e
  | .ok _ =>
    let buttons := config.getD "buttons" (.jobj [])
    if !buttons.isDict then .error "The buttons section must be a dictionary."
    else
      match checkButtonEntries buttons.objFields with
      | .error e => .error e
      | .ok _ =>
        let media := config.getD "media" (.jobj [])
        if !media.isDict then .error "The media section must be a dictionary."
        else
          match checkMediaEntries media.objFields with
          | .error e => .error e
          | .ok _ =>
            let actions := config.getD "actions" (.jobj [])
            if !actions.isDict then .error "The actions section must be a dictionary."
            else
              match checkActionEntries actions.objFields with
              | .error e => .error e
              | .ok _ =>
                let settings := config.getD "settings" (.jobj [])
                if !settings.isDict then .error "The settings section must be a dictionary."
                else
                  match checkSettingEntries settings expectedSettings with
                  | .error e => .error e
                  | .ok _ => checkBgColor settings

/-! The USB-side validation helper, `ConfigUpdater._validate_usb_config`
(config_updater.py, lines 68-92).  The helper builds a throwaway
`ConfigManager` on the file (whose constructor loads the JSON and runs
`_validate_config`) and then calls `temp_config_manager.load_config()`.
`ConfigManager` defines no method named `load_config` anywhere in the
repository (the only `load_config` is a free function in config_loader.py),
so this attribute access raises `AttributeError`, which the helper catches
with its blanket `except Exception` clause and turns into `None`. -/

/-- Whether the class `ConfigManager` (config_manager.py) defines a method
`load_config`.  It does not: its methods are `_load_and_validate_config`,
`_validate_config`, `get_config`, `get_buttons_config`, `get_media_config`,
`get_actions_config`, `get_settings`, `get_specific_setting`,
`get_default_media_name` and `get_combined_actions`. -/
def configManagerHasLoadConfig : Bool := false

/-- The helper `ConfigUpdater._validate_usb_config` (config_updater.py,
lines 68-92), as a function of the content of the file at the given path
(`none` when the file is absent).  A missing file or a schema violation
raises `ConfigError` in the `ConfigManager` constructor, caught by the
`except ValueError` clause; when construction succeeds, the call
`temp_config_manager.load_config()` raises `AttributeError` (the method
does not exist), caught by the `except Exception` clause.  Either way the
helper returns `None`. -/
def validate_usb_config (fileContent : Option JValue) : Option JValue :=
  match fileContent with
  | none => none
  | some doc =>
    match validate_config doc with
    | .error _ => none
    | .ok _ =>
      if configManagerHasLoadConfig then some doc else none

/-! Asset gathering, `ConfigUpdater._gather_assets_from_config`
(config_updater.py, lines 114-134).  The accumulator is an association
list in insertion order, mirroring the Python dictionary `assets_map`. -/

/-- Lookup in an association list of strings (Python dictionary access and
`key in d`). -/
def alookup : List (String × String) → String → Option String
  | [], _ => none
  | (k, v) :: rest, key => if k = key then some v else alookup rest key

/-- Python `d.get(key, [])` restricted to list values: the list at `key`,
or the empty list when the key is absent or its value is not a list. -/
def getListField (j : JValue) (key : String) : List JValue :=
  match j.lookup key with
  | some (.jarr xs) => xs
  | _ => []

/-- Whether the first character list is an initial segment of the
second. -/
def listIsInitial : List Char → List Char → Bool
  | [], _ => true
  | _ :: _, [] => false
  | a :: as, b :: bs => a == b && listIsInitial as bs

/-- Python `p.startswith(marker)` (character-wise, as Python strings
are). -/
def pyStartsWith (p marker : String) : Bool :=
  listIsInitial marker.toList p.toList

/-- Python `p.endswith(marker)`. -/
def pyEndsWith (p marker : String) : Bool :=
  listIsInitial marker.toList.reverse p.toList.reverse

/-- Python slicing `p[n:]` (character-wise). -/
def pyDropChars (p : String) (n : Nat) : String :=
  String.mk (p.toList.drop n)

/-- The asset-path convention marker `_USB_ASSETS_DIR_NAME + "/"`
(config_updater.py, lines 21, 102, 124). -/
def usbAssetsDirSlash : String := "assets/"

/-- Inner loop of `_gather_assets_from_config` over the media items of one
screen (config_updater.py, lines 127-133): a path field that is a string
and starts with `assets/` is stripped of the marker and inserted into the
accumulator unless its relative path is already recorded. -/
def gatherMediaItems : List JValue → List (String × String) → List (String × String)
  | [], acc => acc
  | item :: rest, acc =>
    match item.lookup "path" with
    | some (.jstr p) =>
      if pyStartsWith p usbAssetsDirSlash then
        let rel := pyDropChars p 7
        if (alookup acc rel).isSome then gatherMediaItems rest acc
        else gatherMediaItems rest (acc ++ [(rel, p)])
      else gatherMediaItems rest acc
    | _ => gatherMediaItems rest acc

/-- Outer loop of `_gather_assets_from_config` over the screens
(config_updater.py, line 126). -/
def gatherScreens : List JValue → List (String × String) → List (String × String)
  | [], acc => acc
  | screen :: rest, acc =>
    gatherScreens rest (gatherMediaItems (getListField screen "media") acc)

/-- `ConfigUpdater._gather_assets_from_config` (config_updater.py, lines
114-134): the map from relative asset path in the package to the original
path string found in the USB config. -/
def gather_assets_from_config (doc : JValue) : List (String × String) :=
  gatherScreens (getListField doc "screens") []

/-! Path rewriting, `ConfigUpdater._rewrite_config_paths`
(config_updater.py, lines 94-112).  The source takes a deep copy
(`json.loads(json.dumps(...))`) and mutates the copy in place; the pure
function below returns the rebuilt document, which is the same value.  The
deployment runs on POSIX, where `os.sep` is the forward slash, so the
final `replace(os.sep, "/")` is the identity and `os.path.join` is
modelled by `pyPathJoin`. -/

/-- POSIX `os.path.join` on two components: an absolute second component
replaces the first; otherwise the components are joined with exactly one
separating slash. -/
def pyPathJoin (a b : String) : String :=
  if pyStartsWith b "/" then b
  else if a = "" then b
  else if pyEndsWith a "/" then a ++ b
  else a ++ "/" ++ b

/-- Replacement of the value at a key in an object field list, keeping the
position of the key (Python dictionary item assignment for an existing
key). -/
def setFieldsList : List (String × JValue) → String → JValue → List (String × JValue)
  | [], _, _ => []
  | (k, v) :: rest, key, newV =>
    if k = key then (k, newV) :: rest else (k, v) :: setFieldsList rest key newV

/-- Replacement of a field value inside a JSON object; other values are
returned unchanged. -/
def JValue.setField : JValue → String → JValue → JValue
  | .jobj fields, key, v => .jobj (setFieldsList fields key v)
  | j, _, _ => j

/-- Rewriting of one media item (config_updater.py, lines 106-111): a
string path field starting with `assets/` is replaced by the join of the
new asset path root with the stripped remainder. -/
def rewriteMediaItem (newRoot : String) (item : JValue) : JValue :=
  match item.lookup "path" with
  | some (.jstr p) =>
    if pyStartsWith p usbAssetsDirSlash then
      item.setField "path" (.jstr (pyPathJoin newRoot (pyDropChars p 7)))
    else item
  | _ => item

/-- Rewriting of one screen (config_updater.py, line 105): every item of
its `media` list is rewritten. -/
def rewriteScreen (newRoot : String) (screen : JValue) : JValue :=
  match screen.lookup "media" with
  | some (.jarr items) =>
    screen.setField "media" (.jarr (items.map (rewriteMediaItem newRoot)))
  | _ => screen

/-- `ConfigUpdater._rewrite_config_paths` (config_updater.py, lines
94-112): every media item of every screen of the `screens` list has its
asset-convention path rewritten; a document without a `screens` list is
returned as the unchanged deep copy. -/
def rewrite_config_paths (doc : JValue) (newRoot : String) : JValue :=
  match doc.lookup "screens" with
  | some (.jarr screens) =>
    doc.setField "screens" (.jarr (screens.map (rewriteScreen newRoot)))
  | _ => doc

/-! Observation helpers used to state the claims.  They read the data
model, they are not part of the engine. -/

/-- Path fields (string-valued) of a list of media items, in order. -/
def pathsOfMediaItems : List JValue → List String
  | [] => []
  | item :: rest =>
    match item.lookup "path" with
    | some (.jstr p) => p :: pathsOfMediaItems rest
    | _ => pathsOfMediaItems rest

/-- All string path fields of all media entries of all screens of a
document, in scan order of `_gather_assets_from_config`. -/
def mediaPathsOfScreens : List JValue → List String
  | [] => []
  | screen :: rest =>
    pathsOfMediaItems (getListField screen "media") ++ mediaPathsOfScreens rest

/-- Stripping of the asset-convention marker: `some rel` when the path
starts with `assets/`, `none` otherwise. -/
def stripAssetsRef (p : String) : Option String :=
  if pyStartsWith p usbAssetsDirSlash then some (pyDropChars p 7) else none

/-- Names defined in the buttons section of a document. -/
def buttonNames (doc : JValue) : List String :=
  (doc.getD "buttons" (.jobj [])).objFields.map Prod.fst

/-- Button references carried by one entry: the string or list of strings
under its `button` field. -/
def buttonRefsOfDetails (details : JValue) : List String :=
  match details.lookup "button" with
  | some (.jstr s) => [s]
  | some (.jarr xs) =>
    xs.filterMap (fun v => match v with | .jstr s => some s | _ => none)
  | _ => []

/-- Button references of all entries of the media section. -/
def mediaButtonRefNames (doc : JValue) : List String :=
  ((doc.getD "media" (.jobj [])).objFields.map
    (fun kv => buttonRefsOfDetails kv.snd)).foldr (· ++ ·) []

/-- Modelled from the spec: the external-interface contract (spec section
6) describes the configuration document as four flat sections, the media
section being a mapping name to a record with a path field.  This
observation collects the path fields of the entries of the top-level
media section, the entries the contract describes. -/
def contractMediaEntryPaths (doc : JValue) : List String :=
  pathsOfMediaItems ((doc.getD "media" (.jobj [])).objFields.map Prod.snd)

/-! The atomic update procedure, `ConfigUpdater._perform_atomic_update`
(config_updater.py, lines 136-319).

The filesystem locations the procedure touches are all fixed and pairwise
distinct (the USB package, the live config file, the live asset directory
`<app_root>/atc_engine/image_sets`, the staging directory
`<app_root>/.update_staging` and the backup directory
`<app_root>/.update_backup`), so the filesystem is modelled as a record
with one field per location.  Config files carry a parsed `JValue` (the
files the procedure handles are JSON); asset directories are association
lists from relative path to file bytes.

Real filesystem primitives can fail (permissions, device errors); each
call site of a fallible primitive in the source is given one flag in
`FaultModel`, `true` meaning the call raises `OSError` there.  A failing
primitive is modelled as leaving the state unchanged.  Calls with
`ignore_errors=True`, `os.path.exists` checks and `_display_message`
never raise. -/

/-- Contents of the filesystem locations `_perform_atomic_update`
reads or writes.  `none` on an `Option` field means the file or directory
does not exist. -/
structure SysState where
  usbConfigFile : Option JValue
  usbAssets : List (String × String)
  liveConfig : Option JValue
  liveAssets : Option (List (String × String))
  backupDirExists : Bool
  backupConfig : Option JValue
  backupAssets : Option (List (String × String))
  stagingDirExists : Bool
  stagingConfigTmp : Option JValue
  stagingAssets : Option (List (String × String))
  stageBackupEntered : Bool

/-- One flag per fallible primitive call site of
`_perform_atomic_update`, named by source line; `true` means the call
raises there. -/
structure FaultModel where
  failStagingCleanup : Bool := false
  failStagingCreate : Bool := false
  failStagingAssetsCreate : Bool := false
  failStageConfigCopy : Bool := false
  failAssetCopyAt : Option Nat := none
  failStagedRead : Bool := false
  failStagedWrite : Bool := false
  failBackupCleanup : Bool := false
  failBackupCreate : Bool := false
  failBackupConfigCopy : Bool := false
  failBackupAssetsCopy : Bool := false
  failLiveAssetsRemove : Bool := false
  failLiveAssetsParentCreate : Bool := false
  failAssetsMove : Bool := false
  failConfigMove : Bool := false
  failRestoreConfig : Bool := false
  failRestoreAssetsRemove : Bool := false
  failRestoreAssetsCopy : Bool := false

/-- The run in which no primitive call fails. -/
def noFaults : FaultModel := {}

/-- The live asset directory name relative to the application root,
`self._assets_dir_name` (config_updater.py, line 43), for the deployed
layout `<app_root>/atc_engine/config.json`. -/
def liveAssetsDirName : String := "atc_engine/image_sets"

/-- Outcome of a fragment of the `try` body: an exception escaping to the
`except` clause (with the state at raise time), an early `return` from the
function, or normal continuation. -/
inductive BodyOut where
  | raised : SysState → BodyOut
  | ret : Bool → SysState → BodyOut
  | go : SysState → BodyOut

/-- Sequencing of body fragments: exceptions and returns short-circuit. -/
def BodyOut.andThen : BodyOut → (SysState → BodyOut) → BodyOut
  | .raised s, _ => .raised s
  | .ret b s, _ => .ret b s
  | .go s, f => f s

/-- Effect of `shutil.rmtree(staging_dir, ...)`: the staging directory and
everything inside it disappears. -/
def clearStaging (s : SysState) : SysState :=
  { s with stagingDirExists := false, stagingConfigTmp := none, stagingAssets := none }

/-- Step b of `_perform_atomic_update` (lines 163-169): remove a stale
staging directory if present, then create the staging directory and its
nested asset directory. -/
def stageSetupStaging (o : FaultModel) (s0 : SysState) : BodyOut :=
  (if s0.stagingDirExists then
     (if o.failStagingCleanup then BodyOut.raised s0 else BodyOut.go (clearStaging s0))
   else BodyOut.go s0).andThen fun s1 =>
    if o.failStagingCreate then .raised s1
    else
      let s2 := { s1 with stagingDirExists := true }
      if o.failStagingAssetsCreate then .raised s2
      else .go { s2 with stagingAssets := some [] }

/-- Replacement or insertion of one file in a directory listing (the
effect of `shutil.copy2` into a directory). -/
def setAssoc : List (String × String) → String → String → List (String × String)
  | [], k, v => [(k, v)]
  | (k1, v1) :: rest, k, v =>
    if k1 = k then (k, v) :: rest else (k1, v1) :: setAssoc rest k v

/-- Asset copy loop of step e (lines 200-213): for each gathered relative
path, in order, the source asset must exist on the USB package or the
procedure cleans staging and returns False; otherwise the asset is copied
into the staging asset directory.  The per-index fault flag covers the
`os.makedirs` and `shutil.copy2` pair of the iteration. -/
def stageAssetLoop (o : FaultModel) : List (String × String) → Nat → SysState → BodyOut
  | [], _, s => .go s
  | (rel, _orig) :: rest, i, s =>
    match alookup s.usbAssets rel with
    | none => .ret false (clearStaging s)
    | some bytes =>
      if o.failAssetCopyAt = some i then .raised s
      else
        stageAssetLoop o rest (i + 1)
          { s with stagingAssets := some (setAssoc (s.stagingAssets.getD []) rel bytes) }

/-- Step e (lines 195-213): copy the USB config into the staging temp
file, then copy every gathered asset. -/
def stageCopyToStaging (o : FaultModel) (usbCfg : JValue) (assetsToCopy : List (String × String))
    (s : SysState) : BodyOut :=
  if o.failStageConfigCopy then .raised s
  else stageAssetLoop o assetsToCopy 0 { s with stagingConfigTmp := some usbCfg }

/-- Step f (lines 216-226): read the staged temp config, rewrite its asset
paths with the live asset directory name as the new root, and write it
back. -/
def stageRewrite (o : FaultModel) (s : SysState) : BodyOut :=
  if o.failStagedRead then .raised s
  else
    match s.stagingConfigTmp with
    | none => .raised s
    | some staged =>
      if o.failStagedWrite then .raised s
      else .go { s with stagingConfigTmp := some (rewrite_config_paths staged liveAssetsDirName) }

/-- Step h (lines 241-260): note that the BackingUp stage was entered,
remove any prior backup directory, recreate it, then copy the live config
file and the live asset directory into it when they exist. -/
def stageBackup (o : FaultModel) (s : SysState) : BodyOut :=
  (let s0 := { s with stageBackupEntered := true }
   if s0.backupDirExists then
     (if o.failBackupCleanup then BodyOut.raised s0
      else BodyOut.go { s0 with backupDirExists := false, backupConfig := none, backupAssets := none })
   else BodyOut.go s0).andThen fun s1 =>
    if o.failBackupCreate then .raised s1
    else
      let s2 := { s1 with backupDirExists := true }
      (match s2.liveConfig with
       | some c =>
         if o.failBackupConfigCopy then BodyOut.raised s2
         else BodyOut.go { s2 with backupConfig := some c }
       | none => BodyOut.go s2).andThen fun s3 =>
        match s3.liveAssets with
        | some a =>
          if o.failBackupAssetsCopy then .raised s3
          else .go { s3 with backupAssets := some a }
        | none => .go s3

/-- First commit operation (lines 270-272): remove the current live asset
directory when it exists. -/
def commitRemoveLiveAssets (s : SysState) : SysState :=
  if s.liveAssets.isSome then { s with liveAssets := none } else s

/-- Second commit operation (line 277): move the staged asset directory
into the live location. -/
def commitMoveAssets (s : SysState) : SysState :=
  { s with liveAssets := s.stagingAssets, stagingAssets := none }

/-- Third commit operation (line 282): move the staged config temp file
over the live config file. -/
def commitMoveConfig (s : SysState) : SysState :=
  { s with liveConfig := s.stagingConfigTmp, stagingConfigTmp := none }

/-- Step i, the committing section (lines 263-284), with its fallible call
sites: remove live assets, ensure the parent directory, move the staged
assets into place, then move the staged config file into place.  An error
carries the state at raise time. -/
def commitSection (o : FaultModel) (s : SysState) : Except SysState SysState :=
  match (if s.liveAssets.isSome then
           (if o.failLiveAssetsRemove then Except.error s
            else Except.ok (commitRemoveLiveAssets s))
         else Except.ok s) with
  | .error e => .error e
  | .ok s1 =>
    if o.failLiveAssetsParentCreate then .error s1
    else if o.failAssetsMove then .error s1
    else
      let s2 := commitMoveAssets s1
      if o.failConfigMove then .error s2
      else .ok (commitMoveConfig s2)

/-- The successive filesystem states of the committing section on the
fault-free path: before commit, after the live asset directory is
removed, after the staged assets are moved into place, and after the
staged config file is moved into place. -/
def commitTrace (s : SysState) : List SysState :=
  [s, commitRemoveLiveAssets s,
   commitMoveAssets (commitRemoveLiveAssets s),
   commitMoveConfig (commitMoveAssets (commitRemoveLiveAssets s))]

/-- Steps i and j (lines 263-290): commit, then clean up the staging
directory and return True. -/
def stageCommitCleanup (o : FaultModel) (s : SysState) : BodyOut :=
  match commitSection o s with
  | .error e => .raised e
  | .ok s2 => .ret true (clearStaging s2)

/-- The `try` body of `_perform_atomic_update` (lines 162-290): staging
setup, USB config validation, asset gathering, copy to staging, path
rewriting, post-validation, backup, commit and cleanup, with the early
`return False` exits of the source. -/
def performUpdateBody (o : FaultModel) (s0 : SysState) : BodyOut :=
  (stageSetupStaging o s0).andThen fun s =>
    match s.usbConfigFile with
    | none => .ret false (clearStaging s)
    | some usbCfg =>
      match validate_usb_config (some usbCfg) with
      | none => .ret false (clearStaging s)
      | some cfgData =>
        (stageCopyToStaging o usbCfg (gather_assets_from_config cfgData) s).andThen fun s5 =>
          (stageRewrite o s5).andThen fun s6 =>
            match validate_usb_config s6.stagingConfigTmp with
            | none => .ret false (clearStaging s6)
            | some _ =>
              (stageBackup o s6).andThen fun s8 =>
                stageCommitCleanup o s8

/-- The inner rollback `try` of the `except` clause (lines 295-312):
restore the live config file from the backup copy when the backup exists,
then restore the live asset directory from the backup tree when that
backup exists, removing a present live asset directory first.  A raise
anywhere inside is caught by the inner `except` clause, which skips the
remaining restore operations. -/
def rollbackInner (o : FaultModel) (s : SysState) : SysState :=
  match (match s.backupConfig with
         | some c =>
           if o.failRestoreConfig then Except.error s
           else Except.ok { s with liveConfig := some c }
         | none => Except.ok s) with
  | .error sE => sE
  | .ok s1 =>
    match s1.backupAssets with
    | none => s1
    | some a =>
      match (if s1.liveAssets.isSome then
               (if o.failRestoreAssetsRemove then Except.error s1
                else Except.ok { s1 with liveAssets := none })
             else Except.ok s1) with
      | .error sE => sE
      | .ok s2 =>
        if o.failRestoreAssetsCopy then s2
        else { s2 with liveAssets := some a }

/-- The `except` clause of `_perform_atomic_update` (lines 292-319):
attempt the rollback, remove the staging directory if it still exists
(with errors ignored), and return False. -/
def handleUpdateException (o : FaultModel) (s : SysState) : Bool × SysState :=
  let s1 := rollbackInner o s
  (false, if s1.stagingDirExists then clearStaging s1 else s1)

/-- `ConfigUpdater._perform_atomic_update` (config_updater.py, lines
136-319) as a state transformer: the returned Boolean is the source
return value.  The `.go` arm is unreachable: the body always ends in a
return or a raise. -/
def perform_atomic_update (o : FaultModel) (s : SysState) : Bool × SysState :=
  match performUpdateBody o s with
  | .raised sE => handleUpdateException o sE
  | .ret b sB => (b, sB)
  | .go sG => (true, sG)

/-! The worker-thread guard, `ConfigUpdater.start_usb_update_process` and
`ConfigUpdater.stop_update_process` (config_updater.py, lines 369-389),
together with the end of `_update_thread_target` (line 365), which clears
the thread slot.  `activeWorkers` counts live worker threads
(`self._update_thread is not None and is_alive()` is `activeWorkers ≠ 0`);
`runsStarted` counts how many update runs were ever begun. -/

/-- Updater concurrency state. -/
structure UpdaterState where
  activeWorkers : Nat
  stopEventSet : Bool
  runsStarted : Nat
deriving Repr, DecidableEq

/-- `start_usb_update_process` (lines 369-380): when a worker is alive the
call only emits the already-running status message; otherwise it clears
the stop event and spawns a new worker thread.  The second component is
the list of status messages displayed. -/
def start_usb_update_process (st : UpdaterState) : UpdaterState × List String :=
  if st.activeWorkers ≠ 0 then
    (st, ["Update process is already running."])
  else
    ({ st with stopEventSet := false,
               activeWorkers := st.activeWorkers + 1,
               runsStarted := st.runsStarted + 1 },
     ["Initializing USB update sequence..."])

/-- `stop_update_process` (lines 382-389): when a worker is alive the stop
event is set; otherwise nothing happens.  No other code of the class ever
reads the stop event. -/
def stop_update_process (st : UpdaterState) : UpdaterState :=
  if st.activeWorkers ≠ 0 then { st with stopEventSet := true } else st

/-- End of `_update_thread_target` (line 365): the worker clears the
thread slot as it finishes. -/
def workerFinished (st : UpdaterState) : UpdaterState :=
  { st with activeWorkers := st.activeWorkers - 1 }

/-- Events observable on the updater: an entry-point call, a stop request,
or a worker finishing. -/
inductive UpdaterEvent where
  | start : UpdaterEvent
  | stop : UpdaterEvent
  | finish : UpdaterEvent

/-- One event step. -/
def stepEvent (st : UpdaterState) : UpdaterEvent → UpdaterState
  | .start => (start_usb_update_process st).fst
  | .stop => stop_update_process st
  | .finish => workerFinished st

/-- A sequence of events. -/
def runEvents (st : UpdaterState) : List UpdaterEvent → UpdaterState
  | [] => st
  | e :: rest => runEvents (stepEvent st e) rest

/-! Concrete documents and states used by the individual claims. -/

/-- A minimal validator-accepted document: empty buttons, media and
actions sections, settings carrying only the required
default_media_name. -/
def c10goodDoc : JValue :=
  .jobj [("buttons", .jobj []), ("media", .jobj []), ("actions", .jobj []),
         ("settings", .jobj [("default_media_name", .jstr "home")])]

/-- The same document with default_media_name removed from settings. -/
def c10badDoc : JValue :=
  .jobj [("buttons", .jobj []), ("media", .jobj []), ("actions", .jobj []),
         ("settings", .jobj [])]

/-- An otherwise schema-valid document whose buttons section is empty
while one media entry and one action entry reference the button named
`n`. -/
def c4template (n : String) : JValue :=
  .jobj [("buttons", .jobj []),
         ("media", .jobj [("item1", .jobj [("mode", .jstr "image_still"),
                                           ("path", .jstr "x.jpg"),
                                           ("button", .jstr n)])]),
         ("actions", .jobj [("act1", .jobj [("mode", .jstr "hdmi_control"),
                                            ("button", .jstr n)])]),
         ("settings", .jobj [("default_media_name", .jstr "item1")])]

/-- A validator-accepted document shaped exactly as the external-interface
contract describes (four flat sections, no screens key), whose single
media entry references the asset `assets/a.jpg`. -/
def c3contractDoc : JValue :=
  .jobj [("buttons", .jobj []),
         ("media", .jobj [("home", .jobj [("mode", .jstr "image_still"),
                                          ("path", .jstr "assets/a.jpg")])]),
         ("actions", .jobj []),
         ("settings", .jobj [("default_media_name", .jstr "home")])]

/-- A validator-accepted document with no screens key, used to witness the
rewrite pass-through. -/
def c6doc : JValue :=
  .jobj [("buttons", .jobj []),
         ("media", .jobj [("home", .jobj [("mode", .jstr "image_still"),
                                          ("path", .jstr "assets/b.jpg")])]),
         ("actions", .jobj []),
         ("settings", .jobj [("default_media_name", .jstr "home")])]

/-- The Scenario A package configuration: all four sections schema-valid,
referencing `assets/a.jpg` both from the flat media section the validator
reads and from the screens structure the gather and rewrite passes read. -/
def scenarioACfg : JValue :=
  .jobj [("buttons", .jobj []),
         ("media", .jobj [("home", .jobj [("mode", .jstr "image_still"),
                                          ("path", .jstr "assets/a.jpg")])]),
         ("actions", .jobj []),
         ("settings", .jobj [("default_media_name", .jstr "home")]),
         ("screens", .jarr [.jobj [("media",
            .jarr [.jobj [("path", .jstr "assets/a.jpg")]])]])]

/-- The Scenario A starting filesystem: the well-formed package with its
asset file present, a live config and live assets in place, no stale
staging or backup. -/
def scenarioAState : SysState :=
  { usbConfigFile := some scenarioACfg,
    usbAssets := [("a.jpg", "JPEGBYTES")],
    liveConfig := some (.jstr "previous live config"),
    liveAssets := some [("old.jpg", "OLDBYTES")],
    backupDirExists := false, backupConfig := none, backupAssets := none,
    stagingDirExists := false, stagingConfigTmp := none, stagingAssets := none,
    stageBackupEntered := false }

/-- A starting filesystem carrying a stale backup from an earlier run
whose config content differs from the current live config, plus a stale
staging directory. -/
def c2state : SysState :=
  { usbConfigFile := none, usbAssets := [],
    liveConfig := some (.jstr "live config v1"),
    liveAssets := some [("a.jpg", "LIVEBYTES")],
    backupDirExists := true,
    backupConfig := some (.jstr "stale backup v0"),
    backupAssets := none,
    stagingDirExists := true, stagingConfigTmp := none, stagingAssets := none,
    stageBackupEntered := false }

/-- A fault environment in which the stale-staging removal at line 166
raises, before any validation or backup happens. -/
def c2faults : FaultModel := { failStagingCleanup := true }

/-- The state left by the run of `c2faults` on `c2state`: the live config
has been overwritten from the stale backup and the staging directory has
been removed. -/
def c2resultState : SysState :=
  { c2state with
      liveConfig := some (.jstr "stale backup v0")
      stagingDirExists := false }

/-- A state at the start of the committing section: new config and assets
staged, old config and assets live. -/
def c5state : SysState :=
  { usbConfigFile := none, usbAssets := [],
    liveConfig := some (.jstr "old config"),
    liveAssets := some [("old.jpg", "OLDBYTES")],
    backupDirExists := true,
    backupConfig := some (.jstr "old config"),
    backupAssets := some [("old.jpg", "OLDBYTES")],
    stagingDirExists := true,
    stagingConfigTmp := some (.jstr "new config"),
    stagingAssets := some [("a.jpg", "JPEGBYTES")],
    stageBackupEntered := true }

/-- First-defined choice on options, used to state lookup laws for the
accumulating gather loops. -/
def orElseO : Option String → Option String → Option String
  | some v, _ => some v
  | none, y => y

/-- The live system and backup locations of `t` agree with those of `s`,
and the BackingUp stage marker is unchanged: the property of every state
produced from `s` by staging-only operations. -/
def PreservesLive (s t : SysState) : Prop :=
  t.liveConfig = s.liveConfig ∧ t.liveAssets = s.liveAssets
    ∧ t.backupConfig = s.backupConfig ∧ t.backupAssets = s.backupAssets
    ∧ t.stageBackupEntered = s.stageBackupEntered

/-! Theorems.  The helper lemmas come first, then one theorem (with its
witness or counterexample where applicable) per claim. -/

/-- Every call of `_validate_usb_config` returns `None`: even on a
schema-valid file the `load_config` attribute access raises inside the
helper. -/
theorem validate_usb_config_eq_none (fileContent : Option JValue) :
    validate_usb_config fileContent = none := by
  cases fileContent with
  | none => rfl
  | some doc =>
    simp only [validate_usb_config]
    cases h : validate_config doc <;> simp [h, configManagerHasLoadConfig]

/-- When the settings object has no default_media_name key, the settings
loop cannot succeed as soon as its table contains that key. -/
theorem checkSettingEntries_dmn_missing :
    ∀ (l : List (String × SettingKind)) (settings : JValue),
      settings.lookup "default_media_name" = none →
      (∃ kind, ("default_media_name", kind) ∈ l) →
      checkSettingEntries settings l ≠ .ok () := by
  intro l
  induction l with
  | nil =>
    intro settings _ hmem
    obtain ⟨kind, hmem⟩ := hmem
    exact absurd hmem (List.not_mem_nil _)
  | cons head rest ih =>
    obtain ⟨k, kind⟩ := head
    intro settings hnone hmem
    obtain ⟨kind2, hmem⟩ := hmem
    simp only [checkSettingEntries]
    cases h : settings.lookup k with
    | none =>
      by_cases hk : k = "default_media_name"
      · simp [hk]
      · simp only [if_neg hk]
        refine ih settings hnone ⟨kind2, ?_⟩
        rcases List.mem_cons.mp hmem with heq | hm
        · exact absurd (congrArg Prod.fst heq).symm hk
        · exact hm
    | some v =>
      cases htype : settingKindHolds kind v with
      | false => simp [htype]
      | true =>
        simp only [htype, if_pos]
        refine ih settings hnone ⟨kind2, ?_⟩
        rcases List.mem_cons.mp hmem with heq | hm
        · exfalso
          have hk : k = "default_media_name" := (congrArg Prod.fst heq).symm
          rw [hk] at h
          rw [hnone] at h
          exact Option.noConfusion h
        · exact hm

/-- A validator success forces the settings loop to succeed on the
document's settings section. -/
theorem validate_config_ok_settings (c : JValue) (h : validate_config c = .ok ()) :
    checkSettingEntries (c.getD "settings" (.jobj [])) expectedSettings = .ok () := by
  simp only [validate_config] at h
  split at h
  · exact absurd h (by simp)
  split at h
  · exact absurd h (by simp)
  split at h
  · exact absurd h (by simp)
  split at h
  · exact absurd h (by simp)
  split at h
  · exact absurd h (by simp)
  split at h
  · exact absurd h (by simp)
  split at h
  · exact absurd h (by simp)
  split at h
  · exact absurd h (by simp)
  split at h
  · exact absurd h (by simp)
  next a heq =>
    cases a
    exact heq

/-- Claim C10: the validator rejects every configuration document whose
settings section lacks the key default_media_name; the other listed
settings keys may all be absent without causing rejection; and on a
document that is valid except for the missing key, the raised error names
the setting. -/
theorem claim10_default_media_name_required :
    (∀ c : JValue,
        (c.getD "settings" (.jobj [])).lookup "default_media_name" = none →
        ∃ e, validate_config c = .error e)
    ∧ validate_config c10goodDoc = .ok ()
    ∧ validate_config c10badDoc = .error "Missing required setting default_media_name." := by
  refine ⟨?_, rfl, rfl⟩
  intro c hnone
  cases hv : validate_config c with
  | error e => exact ⟨e, rfl⟩
  | ok u =>
    cases u
    exact absurd (validate_config_ok_settings c hv)
      (checkSettingEntries_dmn_missing expectedSettings _ hnone
        ⟨SettingKind.str, by simp [expectedSettings]⟩)

/-- Witness for claim C10: the concrete document missing
default_media_name is rejected. -/
theorem claim10_witness : ∃ e, validate_config c10badDoc = .error e :=
  claim10_default_media_name_required.1 c10badDoc rfl

/-- Claim C4 counterexample: a document whose media entry references the
button ghost while the buttons section is empty is reported valid by the
validator, refuting the claim that such documents are always rejected. -/
theorem claim4_counterexample :
    validate_config (c4template "ghost") = .ok ()
    ∧ mediaButtonRefNames (c4template "ghost") = ["ghost"]
    ∧ buttonNames (c4template "ghost") = [] :=
  ⟨rfl, rfl, rfl⟩

/-- Claim C4 amended: the validator never checks that a button reference
names an existing button; for every reference name n it accepts the
otherwise schema-valid document whose media and action entries reference
n while the buttons section is empty. -/
theorem claim4_validator_accepts_dangling_button_refs (n : String) :
    validate_config (c4template n) = .ok ()
    ∧ mediaButtonRefNames (c4template n) = [n]
    ∧ buttonNames (c4template n) = [] :=
  ⟨rfl, rfl, rfl⟩

/-- Claim C6: a document with no top-level screens key is returned
unchanged by the path rewriting pass, for every new asset root; in
particular every document made of exactly the four flat sections is
returned unchanged. -/
theorem claim6_rewrite_identity_without_screens :
    (∀ (doc : JValue) (newRoot : String),
        doc.lookup "screens" = none → rewrite_config_paths doc newRoot = doc)
    ∧ ∀ (b m a s : JValue) (newRoot : String),
        rewrite_config_paths
            (.jobj [("buttons", b), ("media", m), ("actions", a), ("settings", s)]) newRoot
          = .jobj [("buttons", b), ("media", m), ("actions", a), ("settings", s)] := by
  have h1 : ∀ (doc : JValue) (newRoot : String),
      doc.lookup "screens" = none → rewrite_config_paths doc newRoot = doc := by
    intro doc newRoot h
    simp only [rewrite_config_paths, h]
  exact ⟨h1, fun b m a s newRoot => h1 _ _ rfl⟩

/-- Witness for claim C6: the concrete four-section document is returned
unchanged by rewriting. -/
theorem claim6_witness :
    rewrite_config_paths c6doc liveAssetsDirName = c6doc :=
  claim6_rewrite_identity_without_screens.1 c6doc liveAssetsDirName rfl

/-- Claim C7: after a stop request, a start call with no worker alive
still begins a new update run (the stop event is cleared, never read), so
the stop request does not suppress the new run as the specification
says. -/
theorem claim7_start_after_stop_begins_new_run (st : UpdaterState)
    (h : st.activeWorkers = 0) :
    (start_usb_update_process (stop_update_process st)).fst.runsStarted = st.runsStarted + 1
    ∧ (start_usb_update_process (stop_update_process st)).fst.activeWorkers = 1 := by
  simp [stop_update_process, start_usb_update_process, h]

/-- Witness for claim C7: from the idle state, stop followed by start
increments the number of runs started. -/
theorem claim7_witness :
    (start_usb_update_process (stop_update_process ⟨0, false, 0⟩)).fst.runsStarted = 0 + 1 :=
  (claim7_start_after_stop_begins_new_run ⟨0, false, 0⟩ rfl).1

/-- Claim C8: a start call while a worker is alive changes nothing and
emits the already-running status message, and along every event sequence
at most one worker is ever alive. -/
theorem claim8_single_worker_guard :
    (∀ st : UpdaterState, st.activeWorkers ≠ 0 →
        start_usb_update_process st = (st, ["Update process is already running."]))
    ∧ ∀ (evs : List UpdaterEvent) (st : UpdaterState),
        st.activeWorkers ≤ 1 → (runEvents st evs).activeWorkers ≤ 1 := by
  constructor
  · intro st h
    simp [start_usb_update_process, h]
  · intro evs
    induction evs with
    | nil => intro st h; exact h
    | cons e rest ih =>
      intro st h
      simp only [runEvents]
      apply ih
      cases e with
      | start =>
        simp only [stepEvent, start_usb_update_process]
        split
        · exact h
        · next hcond =>
          simp only [ne_eq, not_not] at hcond
          show st.activeWorkers + 1 ≤ 1
          omega
      | stop =>
        simp only [stepEvent, stop_update_process]
        split <;> simpa
      | finish =>
        simp only [stepEvent, workerFinished]
        omega

/-- Witness for claim C8: a start call with a worker alive is rejected
with the already-running message. -/
theorem claim8_witness :
    start_usb_update_process ⟨1, false, 1⟩
      = (⟨1, false, 1⟩, ["Update process is already running."]) :=
  claim8_single_worker_guard.1 ⟨1, false, 1⟩ (by decide)

/-- The staging setup step either raises or continues, and in every case
the produced state agrees with the initial one outside the staging
directory. -/
theorem stageSetupStaging_cases (o : FaultModel) (s : SysState) :
    (∃ t, stageSetupStaging o s = .raised t ∧ PreservesLive s t)
    ∨ (∃ t, stageSetupStaging o s = .go t ∧ PreservesLive s t) := by
  cases hd : s.stagingDirExists <;> cases hc : o.failStagingCleanup <;>
    cases h2 : o.failStagingCreate <;> cases h3 : o.failStagingAssetsCreate <;>
      simp [stageSetupStaging, hd, hc, h2, h3, BodyOut.andThen, clearStaging, PreservesLive]

/-- With no faults, the staging setup step always continues. -/
theorem stageSetupStaging_noFaults_go (s : SysState) :
    ∃ t, stageSetupStaging noFaults s = .go t := by
  rcases stageSetupStaging_cases noFaults s with ⟨t, ht, _⟩ | ⟨t, ht, _⟩
  · exfalso
    revert ht
    cases hd : s.stagingDirExists <;>
      simp [stageSetupStaging, hd, noFaults, BodyOut.andThen]
  · exact ⟨t, ht⟩

/-- The body of `_perform_atomic_update` can only raise during staging
setup or return False at the USB-config validation step, because the
validation helper rejects every file; in both cases the resulting state
agrees with the initial one on the live system and backup locations. -/
theorem performUpdateBody_early (o : FaultModel) (s : SysState) :
    (∃ t, performUpdateBody o s = .raised t ∧ PreservesLive s t)
    ∨ (∃ t, performUpdateBody o s = .ret false t ∧ PreservesLive s t) := by
  rcases stageSetupStaging_cases o s with ⟨t, hst, hp⟩ | ⟨t, hst, hp⟩
  · exact Or.inl ⟨t, by simp [performUpdateBody, hst, BodyOut.andThen], hp⟩
  · right
    cases hu : t.usbConfigFile with
    | none =>
      exact ⟨clearStaging t,
        by simp [performUpdateBody, hst, BodyOut.andThen, hu], hp⟩
    | some cfg =>
      exact ⟨clearStaging t,
        by simp [performUpdateBody, hst, BodyOut.andThen, hu, validate_usb_config_eq_none], hp⟩

/-- With no faults, the body always returns False at the USB-config
validation step. -/
theorem performUpdateBody_noFaults (s : SysState) :
    ∃ t, performUpdateBody noFaults s = .ret false t := by
  obtain ⟨t, ht⟩ := stageSetupStaging_noFaults_go s
  cases hu : t.usbConfigFile with
  | none =>
    exact ⟨clearStaging t, by simp [performUpdateBody, ht, BodyOut.andThen, hu]⟩
  | some cfg =>
    exact ⟨clearStaging t,
      by simp [performUpdateBody, ht, BodyOut.andThen, hu, validate_usb_config_eq_none]⟩

/-- When no backup files exist, the rollback attempt of the exception
handler does nothing. -/
theorem rollbackInner_no_backup (o : FaultModel) (t : SysState)
    (hc : t.backupConfig = none) (ha : t.backupAssets = none) :
    rollbackInner o t = t := by
  simp [rollbackInner, hc, ha]

/-- Claim C9: for every fault environment and every starting filesystem,
`_perform_atomic_update` returns a Boolean to its caller rather than
propagating an exception, the return value being False (every run fails
at USB-config validation or earlier, and every raise is absorbed by the
except clause). -/
theorem claim9_update_always_returns_false (o : FaultModel) (s : SysState) :
    ∃ t, perform_atomic_update o s = (false, t) := by
  rcases performUpdateBody_early o s with ⟨t, h, _⟩ | ⟨t, h, _⟩
  · refine ⟨(handleUpdateException o t).snd, ?_⟩
    simp only [perform_atomic_update, h]
    exact Prod.ext rfl rfl
  · exact ⟨t, by simp [perform_atomic_update, h]⟩

/-- Claim C2 counterexample: with a stale backup present and a raise
during staging cleanup, the run fails before the BackingUp stage and yet
the live configuration file has been overwritten from the stale backup,
refuting the claim that every pre-backup failure leaves the live system
byte-identical. -/
theorem claim2_counterexample :
    perform_atomic_update c2faults c2state = (false, c2resultState)
    ∧ (perform_atomic_update c2faults c2state).snd.stageBackupEntered = false
    ∧ (perform_atomic_update c2faults c2state).snd.liveConfig ≠ c2state.liveConfig := by
  refine ⟨rfl, rfl, ?_⟩
  intro hcontra
  have h : some (JValue.jstr "stale backup v0") = some (JValue.jstr "live config v1") := hcontra
  injection h with h1
  injection h1 with h2
  exact absurd h2 (by decide)

/-- Claim C2 amended: a run that fails before the BackingUp stage leaves
the live configuration and live asset directory unchanged provided no
backup from an earlier run is present or no primitive operation raises;
with a stale backup present, a pre-backup raise triggers the rollback
handler, which can overwrite the live files from that backup. -/
theorem claim2_prebackup_failures_preserve_live (o : FaultModel) (s : SysState)
    (h : (s.backupConfig = none ∧ s.backupAssets = none) ∨ o = noFaults) :
    (perform_atomic_update o s).fst = false
    ∧ (perform_atomic_update o s).snd.liveConfig = s.liveConfig
    ∧ (perform_atomic_update o s).snd.liveAssets = s.liveAssets
    ∧ (perform_atomic_update o s).snd.stageBackupEntered = s.stageBackupEntered := by
  rcases performUpdateBody_early o s with ⟨t, hb, hp⟩ | ⟨t, hb, hp⟩
  · rcases h with ⟨hc, ha⟩ | rfl
    · have hrb : rollbackInner o t = t :=
        rollbackInner_no_backup o t (hp.2.2.1.trans hc) (hp.2.2.2.1.trans ha)
      have hperf : perform_atomic_update o s
          = (false, if t.stagingDirExists then clearStaging t else t) := by
        simp [perform_atomic_update, hb, handleUpdateException, hrb]
      rw [hperf]
      refine ⟨rfl, ?_, ?_, ?_⟩ <;> (split <;> simp [clearStaging, hp.1, hp.2.1, hp.2.2.2.2])
    · obtain ⟨u, hu⟩ := performUpdateBody_noFaults s
      rw [hu] at hb
      exact absurd hb (by simp)
  · have hperf : perform_atomic_update o s = (false, t) := by
      simp [perform_atomic_update, hb]
    rw [hperf]
    exact ⟨rfl, hp.1, hp.2.1, hp.2.2.2.2⟩

/-- Witness for claim C2: on the Scenario A filesystem (no backup
present) with the staging-cleanup fault, the run fails and the live
locations are untouched. -/
theorem claim2_witness :
    (perform_atomic_update c2faults scenarioAState).fst = false
    ∧ (perform_atomic_update c2faults scenarioAState).snd.liveConfig = scenarioAState.liveConfig
    ∧ (perform_atomic_update c2faults scenarioAState).snd.liveAssets = scenarioAState.liveAssets
    ∧ (perform_atomic_update c2faults scenarioAState).snd.stageBackupEntered
        = scenarioAState.stageBackupEntered :=
  claim2_prebackup_failures_preserve_live c2faults scenarioAState (Or.inl ⟨rfl, rfl⟩)

/-- Claim C1: on the well-formed Scenario A package (schema-valid config
referencing assets/a.jpg, the asset file present with its bytes on the
USB package), the fault-free update run returns False and leaves the
live system unchanged, instead of succeeding as the claim states: the
validation helper calls the nonexistent `ConfigManager.load_config` and
rejects every package. -/
theorem claim1_scenarioA_update_fails :
    validate_config scenarioACfg = .ok ()
    ∧ gather_assets_from_config scenarioACfg = [("a.jpg", "assets/a.jpg")]
    ∧ alookup scenarioAState.usbAssets "a.jpg" = some "JPEGBYTES"
    ∧ perform_atomic_update noFaults scenarioAState = (false, scenarioAState) :=
  ⟨rfl, rfl, rfl, rfl⟩

/-- Claim C5: along the committing sequence (remove live assets, move
staged assets into place, then move the staged config file into place),
every intermediate state in which the new configuration is live already
has the staged asset tree in place: new config with the old asset tree is
never observable. -/
theorem claim5_commit_assets_before_config (s : SysState) (newCfg : JValue)
    (hstage : s.stagingConfigTmp = some newCfg)
    (hdiff : s.liveConfig ≠ some newCfg) :
    ∀ t ∈ commitTrace s, t.liveConfig = some newCfg → t.liveAssets = s.stagingAssets := by
  intro t ht hconf
  simp only [commitTrace, List.mem_cons, List.not_mem_nil, or_false] at ht
  rcases ht with rfl | rfl | rfl | rfl
  · exact absurd hconf hdiff
  · have hl : (commitRemoveLiveAssets s).liveConfig = s.liveConfig := by
      unfold commitRemoveLiveAssets; split <;> rfl
    rw [hl] at hconf
    exact absurd hconf hdiff
  · have hl : (commitMoveAssets (commitRemoveLiveAssets s)).liveConfig = s.liveConfig := by
      unfold commitMoveAssets commitRemoveLiveAssets; split <;> rfl
    rw [hl] at hconf
    exact absurd hconf hdiff
  · have hst : (commitRemoveLiveAssets s).stagingAssets = s.stagingAssets := by
      unfold commitRemoveLiveAssets; split <;> rfl
    show (commitMoveConfig (commitMoveAssets (commitRemoveLiveAssets s))).liveAssets
        = s.stagingAssets
    simp [commitMoveConfig, commitMoveAssets, hst]

/-- Witness for claim C5: at the concrete pre-commit state, the final
commit state carries the staged asset tree. -/
theorem claim5_witness :
    (commitMoveConfig (commitMoveAssets (commitRemoveLiveAssets c5state))).liveAssets
      = c5state.stagingAssets :=
  claim5_commit_assets_before_config c5state (.jstr "new config") rfl
    (by
      intro hcontra
      have h : some (JValue.jstr "old config") = some (JValue.jstr "new config") := hcontra
      injection h with h1
      injection h1 with h2
      exact absurd h2 (by decide))
    (commitMoveConfig (commitMoveAssets (commitRemoveLiveAssets c5state)))
    (by simp [commitTrace]) rfl

/-- Choice with an absent second option is the first option. -/
theorem orElseO_none (x : Option String) : orElseO x none = x := by
  cases x <;> rfl

/-- Choice is associative. -/
theorem orElseO_assoc (a b c : Option String) :
    orElseO (orElseO a b) c = orElseO a (orElseO b c) := by
  cases a <;> rfl

/-- Association-list lookup distributes over append as a first-defined
choice. -/
theorem alookup_append (l1 l2 : List (String × String)) (k : String) :
    alookup (l1 ++ l2) k = orElseO (alookup l1 k) (alookup l2 k) := by
  induction l1 with
  | nil => simp [alookup, orElseO]
  | cons head rest ih =>
    obtain ⟨k1, v1⟩ := head
    by_cases hk : k1 = k
    · simp [alookup, hk, orElseO]
    · simp [alookup, hk, ih]

/-- A lookup misses exactly when the key is not among the stored keys. -/
theorem alookup_eq_none_iff (l : List (String × String)) (k : String) :
    alookup l k = none ↔ k ∉ l.map Prod.fst := by
  induction l with
  | nil => simp [alookup]
  | cons head rest ih =>
    obtain ⟨k1, v1⟩ := head
    by_cases hk : k1 = k
    · simp [alookup, hk]
    · simp [alookup, hk, ih, Ne.symm hk]

/-- Find over an appended list is the first-defined choice of the two
finds. -/
theorem find?_append (l1 l2 : List String) (f : String → Bool) :
    (l1 ++ l2).find? f = orElseO (l1.find? f) (l2.find? f) := by
  induction l1 with
  | nil => simp [orElseO]
  | cons a rest ih =>
    cases ha : f a
    · simp [List.find?, ha, ih]
    · simp [List.find?, ha, orElseO]

/-- Lookup law of the inner gather loop: a key resolves first through the
accumulator, then to the first scanned path field whose stripped form is
the key. -/
theorem alookup_gatherMediaItems (items : List JValue) (acc : List (String × String)) (k : String) :
    alookup (gatherMediaItems items acc) k
      = orElseO (alookup acc k)
          ((pathsOfMediaItems items).find? (fun p => stripAssetsRef p == some k)) := by
  induction items generalizing acc with
  | nil => simp [gatherMediaItems, pathsOfMediaItems, orElseO_none]
  | cons item rest ih =>
    cases hp : item.lookup "path" with
    | none =>
      simp only [gatherMediaItems, pathsOfMediaItems, hp]
      exact ih acc
    | some v =>
      cases v with
      | jstr p =>
        simp only [gatherMediaItems, pathsOfMediaItems, hp]
        cases hs : pyStartsWith p usbAssetsDirSlash with
        | false =>
          have hstrip : stripAssetsRef p = none := by simp [stripAssetsRef, hs]
          simp only [hs, Bool.false_eq_true, if_false, List.find?, hstrip]
          exact ih acc
        | true =>
          have hstrip : stripAssetsRef p = some (pyDropChars p 7) := by
            simp [stripAssetsRef, hs]
          simp only [hs, if_true, List.find?, hstrip]
          cases hacc : alookup acc (pyDropChars p 7) with
          | some w =>
            simp only [hacc, Option.isSome_some, if_true]
            rw [ih acc]
            by_cases hk : pyDropChars p 7 = k
            · subst hk
              rw [hacc]
              simp [orElseO]
            · have hbeq : (some (pyDropChars p 7) == some k) = false := by
                simp [hk]
              rw [hbeq]
          | none =>
            simp only [hacc, Option.isSome_none, Bool.false_eq_true, if_false]
            rw [ih (acc ++ [(pyDropChars p 7, p)])]
            rw [alookup_append]
            by_cases hk : pyDropChars p 7 = k
            · subst hk
              have hbeq : (some (pyDropChars p 7) == some (pyDropChars p 7)) = true := by
                simp
              rw [hbeq, hacc]
              simp [alookup, orElseO]
            · have hbeq : (some (pyDropChars p 7) == some k) = false := by
                simp [hk]
              rw [hbeq]
              have hsingle : alookup [(pyDropChars p 7, p)] k = none := by
                simp [alookup, hk]
              rw [hsingle, orElseO_none]
      | jnull =>
        simp only [gatherMediaItems, pathsOfMediaItems, hp]; exact ih acc
      | jbool b =>
        simp only [gatherMediaItems, pathsOfMediaItems, hp]; exact ih acc
      | jint n =>
        simp only [gatherMediaItems, pathsOfMediaItems, hp]; exact ih acc
      | jfloat n =>
        simp only [gatherMediaItems, pathsOfMediaItems, hp]; exact ih acc
      | jarr xs =>
        simp only [gatherMediaItems, pathsOfMediaItems, hp]; exact ih acc
      | jobj fs =>
        simp only [gatherMediaItems, pathsOfMediaItems, hp]; exact ih acc

/-- Lookup law of the outer gather loop over the screens. -/
theorem alookup_gatherScreens (screens : List JValue) (acc : List (String × String)) (k : String) :
    alookup (gatherScreens screens acc) k
      = orElseO (alookup acc k)
          ((mediaPathsOfScreens screens).find? (fun p => stripAssetsRef p == some k)) := by
  induction screens generalizing acc with
  | nil => simp [gatherScreens, mediaPathsOfScreens, orElseO_none]
  | cons sc rest ih =>
    simp only [gatherScreens, mediaPathsOfScreens]
    rw [ih, alookup_gatherMediaItems, find?_append, orElseO_assoc]

/-- The inner gather loop never duplicates a relative-path key. -/
theorem gatherMediaItems_keys_nodup (items : List JValue) (acc : List (String × String))
    (h : (acc.map Prod.fst).Nodup) : ((gatherMediaItems items acc).map Prod.fst).Nodup := by
  induction items generalizing acc with
  | nil => exact h
  | cons item rest ih =>
    cases hp : item.lookup "path" with
    | none => simp only [gatherMediaItems, hp]; exact ih acc h
    | some v =>
      cases v with
      | jstr p =>
        simp only [gatherMediaItems, hp]
        cases hs : pyStartsWith p usbAssetsDirSlash with
        | false =>
          simp only [hs, Bool.false_eq_true, if_false]
          exact ih acc h
        | true =>
          simp only [hs, if_true]
          cases hacc : alookup acc (pyDropChars p 7) with
          | some w =>
            simp only [hacc, Option.isSome_some, if_true]
            exact ih acc h
          | none =>
            simp only [hacc, Option.isSome_none, Bool.false_eq_true, if_false]
            apply ih
            rw [List.map_append]
            refine List.Nodup.append h (by simp) ?_
            intro x hx hmem
            have hxr : x = pyDropChars p 7 := by simpa using hmem
            rw [hxr] at hx
            exact absurd hx ((alookup_eq_none_iff acc _).mp hacc)
      | jnull => simp only [gatherMediaItems, hp]; exact ih acc h
      | jbool b => simp only [gatherMediaItems, hp]; exact ih acc h
      | jint n => simp only [gatherMediaItems, hp]; exact ih acc h
      | jfloat n => simp only [gatherMediaItems, hp]; exact ih acc h
      | jarr xs => simp only [gatherMediaItems, hp]; exact ih acc h
      | jobj fs => simp only [gatherMediaItems, hp]; exact ih acc h

/-- The outer gather loop never duplicates a relative-path key. -/
theorem gatherScreens_keys_nodup (screens : List JValue) (acc : List (String × String))
    (h : (acc.map Prod.fst).Nodup) : ((gatherScreens screens acc).map Prod.fst).Nodup := by
  induction screens generalizing acc with
  | nil => exact h
  | cons sc rest ih =>
    simp only [gatherScreens]
    exact ih _ (gatherMediaItems_keys_nodup _ acc h)

/-- Claim C3 counterexample: on a validator-accepted document shaped as
the external-interface contract describes (four flat sections, a media
entry whose path is assets/a.jpg), the gather function returns the empty
map: it does not contain the stripped key a.jpg the claim requires,
because the function reads the screens structure, not the contract's
media section. -/
theorem claim3_counterexample :
    validate_config c3contractDoc = .ok ()
    ∧ contractMediaEntryPaths c3contractDoc = ["assets/a.jpg"]
    ∧ stripAssetsRef "assets/a.jpg" = some "a.jpg"
    ∧ gather_assets_from_config c3contractDoc = []
    ∧ alookup (gather_assets_from_config c3contractDoc) "a.jpg" = none :=
  ⟨rfl, rfl, rfl, rfl, rfl⟩

/-- Claim C3 amended: gather reads the media entries of the screens list;
over that scan, its result maps a relative path k exactly to the first
scanned path field whose stripped form is k (first reference seen, no
other entries), and it never returns duplicate relative-path keys.  On a
contract-shaped document, which has no screens list, the scan is empty
and the result is the empty map. -/
theorem claim3_gather_characterization (doc : JValue) :
    (∀ k, alookup (gather_assets_from_config doc) k
        = (mediaPathsOfScreens (getListField doc "screens")).find?
            (fun p => stripAssetsRef p == some k))
    ∧ ((gather_assets_from_config doc).map Prod.fst).Nodup := by
  constructor
  · intro k
    unfold gather_assets_from_config
    rw [alookup_gatherScreens]
    rfl
  · exact gatherScreens_keys_nodup _ [] (by simp)

end SlideGpio
